import Mathlib

/-!
Verification development for the retrieval-and-templating pipeline of
`app.py` (a small question-answering tool: HTML cleaning, document
chunking, FAISS index rebuild/load, and rule-based answer templating).

Strings are embedded as `List Char` (one entry per Unicode code point,
matching Python's `str` indexing and `len`).  Python's `str.lower` is
modelled on ASCII letters (Lean's `Char.toLower`); non-ASCII characters
pass through unchanged, which is all the keyword matching below needs
since every keyword literal in the source is already lower-case.
-/

/-- The characters matched by Python's regex class `\s` (ASCII range) and
stripped by `str.strip()`. -/
def pyIsSpace (c : Char) : Bool :=
  c = ' ' || c = '\t' || c = '\n' || c = '\r' || c = '\x0b' || c = '\x0c'

/-- Python `str.lower`, restricted to ASCII letters. -/
def pyLower (l : List Char) : List Char :=
  l.map Char.toLower

/-- Python `str.strip()`: drop whitespace from both ends. -/
def stripWs (l : List Char) : List Char :=
  (((l.dropWhile pyIsSpace).reverse).dropWhile pyIsSpace).reverse

/-- Python `str.split('\n')`: split on every newline; `""` gives `[""]`. -/
def splitOnNl : List Char → List (List Char)
  | [] => [[]]
  | c :: cs =>
    if c = '\n' then [] :: splitOnNl cs
    else
      match splitOnNl cs with
      | [] => [[c]]
      | l :: ls => (c :: l) :: ls

/-- Python `sep.join(parts)` for a one-character separator. -/
def joinWith (sep : Char) : List (List Char) → List Char
  | [] => []
  | [x] => x
  | x :: xs => x ++ sep :: joinWith sep xs

/-- Python's substring test `pat in l`. -/
def isSubstr (pat : List Char) : List Char → Bool
  | [] => pat.isEmpty
  | c :: cs => pat.isPrefixOf (c :: cs) || isSubstr pat cs

/-- Helper for `countWords`: the flag records whether the previous
character belonged to a word. -/
def countWordsAux : Bool → List Char → Nat
  | _, [] => 0
  | inWord, c :: cs =>
    if pyIsSpace c then countWordsAux false cs
    else (if inWord then 0 else 1) + countWordsAux true cs

/-- Python `len(l.split())`: the number of maximal non-whitespace runs. -/
def countWords (l : List Char) : Nat :=
  countWordsAux false l

/-- Helper for `collapseWs`: the flag records whether the previous
character was whitespace (in which case further whitespace is dropped). -/
def collapseWsAux : Bool → List Char → List Char
  | _, [] => []
  | prevWs, c :: cs =>
    if pyIsSpace c then
      if prevWs then collapseWsAux true cs
      else ' ' :: collapseWsAux true cs
    else c :: collapseWsAux false cs

/-- Python `re.sub(r'\s+', ' ', l)`: each maximal whitespace run becomes a
single space. -/
def collapseWs (l : List Char) : List Char :=
  collapseWsAux false l

/-- Scan for the first `'>'`; `some rest` is the text after it. -/
def findCloseTag : List Char → Option (List Char)
  | [] => none
  | c :: cs => if c = '>' then some cs else findCloseTag cs

/-- Given the text that follows a `'<'`, decide whether the regex
`<[^>]+>` matches here: it needs at least one non-`'>'` character and then
a `'>'`.  `some rest` is the text after the closing `'>'`. -/
def afterTag : List Char → Option (List Char)
  | [] => none
  | c :: cs => if c = '>' then none else findCloseTag cs

/-- Fueled scanner counting the leftmost non-overlapping matches of
`<[^>]+>`, exactly as `len(re.findall(r'<[^>]+>', text))` finds them: at a
`'<'` a match needs one or more non-`'>'` characters then `'>'`; after a
match the scan resumes past the closing `'>'`, after a failed attempt it
resumes at the next character.  Each step consumes at least one character,
so fuel equal to the input length (as passed by `tagMatches`) never runs
out. -/
def tagMatchesF : Nat → List Char → Nat
  | 0, _ => 0
  | _ + 1, [] => 0
  | n + 1, c :: cs =>
    if c = '<' then
      match afterTag cs with
      | some rest => 1 + tagMatchesF n rest
      | none => tagMatchesF n cs
    else tagMatchesF n cs

/-- `len(re.findall(r'<[^>]+>', text))`. -/
def tagMatches (l : List Char) : Nat :=
  tagMatchesF l.length l

/-- Fueled scanner for `re.sub(r'<[^>]+>', '', text)`: matched tags are
dropped, everything else is kept; same scan order and fuel argument as
`tagMatchesF`. -/
def removeTagsF : Nat → List Char → List Char
  | 0, l => l
  | _ + 1, [] => []
  | n + 1, c :: cs =>
    if c = '<' then
      match afterTag cs with
      | some rest => removeTagsF n rest
      | none => c :: removeTagsF n cs
    else c :: removeTagsF n cs

/-- `re.sub(r'<[^>]+>', '', text)`. -/
def removeTags (l : List Char) : List Char :=
  removeTagsF l.length l

/-- `clean_html_tags` (app.py lines 18 to 28): if fewer than 3 tag-like
matches are present the input is returned untouched; otherwise tags are
removed, whitespace runs are collapsed, and the ends are stripped. -/
def clean_html_tags (text : List Char) : List Char :=
  if tagMatches text < 3 then text
  else stripWs (collapseWs (removeTags text))

/-- Suffix of the `"nedir"`/`"ne demek"` template (app.py line 88). -/
def sfxNedir : List Char := "... [Devamı için detaylı sonuçlara bakın]".data

/-- Suffix of the `"nasıl"`/`"yapılır"`/`"kurulur"` template (line 91). -/
def sfxNasil : List Char := "... [Adımlar için detaylı sonuçları inceleyin]".data

/-- Suffix of the `"ne işe yarar"`/`"kullanım"` template (line 94). -/
def sfxKullanim : List Char := "... [Kullanım detayları için yukarıdaki sonuçlara bakın]".data

/-- Suffix of the `"bileşen"`/`"component"` template (line 97). -/
def sfxBilesen : List Char := "... [Bileşen listesi için detaylı sonuçları görün]".data

/-- Suffix of the `"rag"` template (line 100). -/
def sfxRag : List Char := "... [RAG mimarisi detayları için sonuçlara bakın]".data

/-- Suffix of the default template (line 103). -/
def sfxDefault : List Char := "... [Detaylı bilgi için yukarıdaki sonuçları okuyun]".data

/-- The six constant suffixes of `generate_response`, in source order. -/
def suffixes : List (List Char) :=
  [sfxNedir, sfxNasil, sfxKullanim, sfxBilesen, sfxRag, sfxDefault]

/-- Length of the longest of the six suffixes. -/
def maxSuffixLen : Nat :=
  (suffixes.map List.length).foldr Nat.max 0

/-- The meaningful-line filter of `generate_response` (app.py lines 72 to
78): each line is stripped, skipped when shorter than 10 characters, or
starting with `"http"`, or containing `"badge"` case-insensitively, and
kept only when it has more than 3 whitespace-delimited words.  The loop
body appends the stripped line; `filterMap` over this function is that
loop. -/
def meaningfulOf (line : List Char) : Option (List Char) :=
  let l := stripWs line
  if decide (l.length < 10) || "http".data.isPrefixOf l
      || isSubstr "badge".data (pyLower l) then
    none
  else if decide (countWords l > 3) then some l
  else none

/-- The `meaningful_lines` list built by the loop of app.py lines 69 to 78
from the already-cleaned context. -/
def meaningful_lines (clean_context : List Char) : List (List Char) :=
  (splitOnNl clean_context).filterMap meaningfulOf

/-- The `meaningful_text` value of app.py lines 66 to 83: clean the
context, join the first five meaningful lines with single spaces, and if
that string is empty (Python's `if not meaningful_text`) fall back to the
first 500 characters of the cleaned context. -/
def candidateText (context : List Char) : List Char :=
  let clean_context := clean_html_tags context
  let meaningful_text := joinWith ' ' ((meaningful_lines clean_context).take 5)
  if meaningful_text = [] then clean_context.take 500 else meaningful_text

/-- `generate_response` (app.py lines 61 to 103): compute the candidate
text, lower-case the question, and dispatch on the first matching keyword
group of the if/elif chain, truncating the candidate and appending the
branch's constant suffix. -/
def generate_response (context question : List Char) : List Char :=
  let meaningful_text := candidateText context
  let question_lower := pyLower question
  if isSubstr "nedir".data question_lower
      || isSubstr "ne demek".data question_lower then
    meaningful_text.take 400 ++ sfxNedir
  else if isSubstr "nasıl".data question_lower
      || isSubstr "yapılır".data question_lower
      || isSubstr "kurulur".data question_lower then
    meaningful_text.take 450 ++ sfxNasil
  else if isSubstr "ne işe yarar".data question_lower
      || isSubstr "kullanım".data question_lower then
    meaningful_text.take 400 ++ sfxKullanim
  else if isSubstr "bileşen".data question_lower
      || isSubstr "component".data question_lower then
    meaningful_text.take 380 ++ sfxBilesen
  else if isSubstr "rag".data question_lower then
    meaningful_text.take 350 ++ sfxRag
  else
    meaningful_text.take 500 ++ sfxDefault

/-- The truncation length and suffix selected by the if/elif chain of
app.py lines 87 to 103 for a lower-cased question. -/
def classify (question_lower : List Char) : Nat × List Char :=
  if isSubstr "nedir".data question_lower
      || isSubstr "ne demek".data question_lower then
    (400, sfxNedir)
  else if isSubstr "nasıl".data question_lower
      || isSubstr "yapılır".data question_lower
      || isSubstr "kurulur".data question_lower then
    (450, sfxNasil)
  else if isSubstr "ne işe yarar".data question_lower
      || isSubstr "kullanım".data question_lower then
    (400, sfxKullanim)
  else if isSubstr "bileşen".data question_lower
      || isSubstr "component".data question_lower then
    (380, sfxBilesen)
  else if isSubstr "rag".data question_lower then
    (350, sfxRag)
  else (500, sfxDefault)

/-- One keyword group of the classifier: its keywords, its truncation
length and its suffix. -/
structure Rule where
  keys : List (List Char)
  trunc : Nat
  sfx : List Char

/-- A rule fires when any of its keywords occurs in the lower-cased
question. -/
def ruleHits (question_lower : List Char) (r : Rule) : Bool :=
  r.keys.any fun k => isSubstr k question_lower

/-- First-match dispatch over an ordered rule list, with a default for
when no rule fires. -/
def firstMatch (rules : List Rule) (dflt : Nat × List Char)
    (question_lower : List Char) : Nat × List Char :=
  match rules.find? (ruleHits question_lower) with
  | some r => (r.trunc, r.sfx)
  | none => dflt

/-- The ordered keyword groups of `generate_response`, transcribed from
the if/elif chain of app.py lines 87 to 100. -/
def templateRules : List Rule :=
  [ ⟨["nedir".data, "ne demek".data], 400, sfxNedir⟩,
    ⟨["nasıl".data, "yapılır".data, "kurulur".data], 450, sfxNasil⟩,
    ⟨["ne işe yarar".data, "kullanım".data], 400, sfxKullanim⟩,
    ⟨["bileşen".data, "component".data], 380, sfxBilesen⟩,
    ⟨["rag".data], 350, sfxRag⟩ ]

/-- Modelled from the spec: the text splitter invoked at app.py line 40 is
langchain's `RecursiveCharacterTextSplitter(chunk_size=1000,
chunk_overlap=200)`, whose implementation is not part of this repository.
Following the spec's contract for the Chunker, it splits a document into
ordered chunks of at most 1000 characters where each chunk after the
first overlaps the previous chunk's tail by 200 characters (so successive
chunks start 800 characters apart), and an empty document yields no
chunks. -/
def splitText (text : List Char) : List (List Char) :=
  if text = [] then []
  else if text.length ≤ 1000 then [text]
  else text.take 1000 :: splitText (text.drop 800)
termination_by text.length
decreasing_by simp [List.length_drop]; omega

/-- Outcome of reading `data.txt` as UTF-8 text: the file's content, or a
load failure (file unreadable or undecodable). -/
inductive LoadOutcome where
  | ok : List Char → LoadOutcome
  | loadError : LoadOutcome

/-- Observable behaviour of one `get_text_chunks` call: the value it
returns (`none` is Python's `None`), whether it displayed an error in the
UI itself via `st.error`, and whether an exception escaped to its
caller. -/
structure ChunksCall where
  result : Option (List (List Char))
  uiErrorShown : Bool
  exceptionPropagated : Bool
deriving DecidableEq

/-- `get_text_chunks` (app.py lines 31 to 45): load the file, clean the
document's content, split it into chunks.  The whole body is wrapped in
`try/except Exception`: on any failure the function calls `st.error` and
returns `None`, so no exception ever reaches the caller. -/
def get_text_chunks (file : LoadOutcome) : ChunksCall :=
  match file with
  | .loadError => ⟨none, true, false⟩
  | .ok text => ⟨some (splitText (clean_html_tags text)), false, false⟩

/-- Abstract persisted FAISS index: we track only the chunk list it was
built from; `save_local` is modelled as atomic (no partial writes). -/
structure VectorStore where
  chunks : List (List Char)
deriving DecidableEq

/-- `get_vector_store` (app.py lines 48 to 58): embed the chunks, build a
FAISS store and persist it to `faiss_index`.  The embedding-model load,
the build and the save are external operations that can fail; `buildOk`
is their combined outcome.  On failure the function catches the
exception, shows a UI error and returns `None` without persisting
anything. -/
def get_vector_store (buildOk : Bool) (text_chunks : List (List Char)) :
    Option VectorStore :=
  if buildOk then some ⟨text_chunks⟩ else none

/-- The index-rebuild button handler (app.py lines 168 to 189), returning
the persisted index state after the handler runs.  `old` is the persisted
state before the click; `deleteOk` is whether `shutil.rmtree` succeeds
(its exception is caught with `st.error` and the handler continues);
`load` feeds `get_text_chunks`; `buildOk` feeds `get_vector_store`.  Note
the handler checks the chunk list with Python truthiness (`if
text_chunks:`), so an empty chunk list is treated like a load failure. -/
def rebuild_index (old : Option VectorStore) (deleteOk : Bool)
    (load : LoadOutcome) (buildOk : Bool) : Option VectorStore :=
  let afterDelete : Option VectorStore :=
    match old with
    | none => none
    | some s => if deleteOk then none else some s
  match (get_text_chunks load).result with
  | none => afterDelete
  | some text_chunks =>
    if text_chunks.isEmpty then afterDelete
    else
      match get_vector_store buildOk text_chunks with
      | none => afterDelete
      | some vs => some vs

/-- Observable outcome of one `user_input` call (app.py lines 106 to
143): the missing-index early return (`st.error("FAISS index
bulunamadı...")`), a rendered answer with its passages, or the outer
`except` branch. -/
inductive QueryOutcome where
  | indexNotFound : QueryOutcome
  | answered : List Char → List (List Char) → QueryOutcome
  | errorCaught : QueryOutcome
deriving DecidableEq

/-- `user_input` (app.py lines 106 to 143).  `indexExists` is
`os.path.exists("faiss_index")`; `loadOk` is whether `FAISS.load_local`
succeeds; `docs` are the page contents `similarity_search` would return.
The second component records whether `similarity_search` was performed. -/
def user_input (indexExists : Bool) (loadOk : Bool)
    (docs : List (List Char)) (user_question : List Char) :
    QueryOutcome × Bool :=
  if !indexExists then (QueryOutcome.indexNotFound, false)
  else if !loadOk then (QueryOutcome.errorCaught, false)
  else
    let all_context := joinWith '\n' docs
    (QueryOutcome.answered (generate_response all_context user_question) docs,
      true)

/-- Bridge: the if/elif chain of `generate_response` agrees with
`classify` branch by branch. -/
theorem generate_response_eq (context question : List Char) :
    generate_response context question =
      (candidateText context).take (classify (pyLower question)).1
        ++ (classify (pyLower question)).2 := by
  unfold generate_response classify
  repeat' split <;> simp_all

/-- Every branch of `classify` truncates to between 300 and 500
characters and appends one of the six fixed non-empty suffixes. -/
theorem classify_mem (ql : List Char) :
    (classify ql).1 ≤ 500 ∧ 300 ≤ (classify ql).1 ∧ (classify ql).2 ∈ suffixes ∧
      (classify ql).2 ≠ [] ∧ (classify ql).2.length ≤ maxSuffixLen := by
  unfold classify
  repeat' split
  all_goals decide

set_option maxHeartbeats 1000000 in
/-- The if/elif chain is first-match dispatch over the transcribed
ordered rule list `templateRules`. -/
theorem classify_eq_firstMatch (ql : List Char) :
    classify ql = firstMatch templateRules (500, sfxDefault) ql := by
  unfold classify firstMatch templateRules ruleHits
  cases h1 : isSubstr "nedir".data ql <;>
  cases h2 : isSubstr "ne demek".data ql <;>
  cases h3 : isSubstr "nasıl".data ql <;>
  cases h4 : isSubstr "yapılır".data ql <;>
  cases h5 : isSubstr "kurulur".data ql <;>
  cases h6 : isSubstr "ne işe yarar".data ql <;>
  cases h7 : isSubstr "kullanım".data ql <;>
  cases h8 : isSubstr "bileşen".data ql <;>
  cases h9 : isSubstr "component".data ql <;>
  cases h10 : isSubstr "rag".data ql <;>
  simp [h1, h2, h3, h4, h5, h6, h7, h8, h9, h10, List.find?]

/-- A line accepted by the filter has at least 10 characters. -/
theorem meaningfulOf_len {line x : List Char} (h : meaningfulOf line = some x) :
    10 ≤ x.length := by
  simp only [meaningfulOf] at h
  split at h
  · exact absurd h (by simp)
  · split at h
    · next h1 _ =>
        obtain rfl : stripWs line = x := by injection h
        simp at h1
        omega
    · exact absurd h (by simp)

/-- Joining a list whose first entry is non-empty gives a non-empty
string. -/
theorem joinWith_cons_ne_nil {sep : Char} {x : List Char} {t : List (List Char)}
    (hx : x ≠ []) : joinWith sep (x :: t) ≠ [] := by
  cases t <;> simp [joinWith, hx]

/-- The two-step skip/append filter of the loop equals one four-condition
test: stripped length at least 10, not starting with `"http"`, not
containing `"badge"` case-insensitively, more than 3 words. -/
theorem meaningfulOf_spec (line : List Char) :
    meaningfulOf line =
      if 10 ≤ (stripWs line).length ∧ "http".data.isPrefixOf (stripWs line) = false
          ∧ isSubstr "badge".data (pyLower (stripWs line)) = false
          ∧ 3 < countWords (stripWs line)
      then some (stripWs line) else none := by
  simp only [meaningfulOf]
  by_cases hA : (stripWs line).length < 10 <;>
  by_cases hB : "http".data.isPrefixOf (stripWs line) = true <;>
  by_cases hC : isSubstr "badge".data (pyLower (stripWs line)) = true <;>
  by_cases hD : 3 < countWords (stripWs line) <;>
  simp [hA, hB, hC, hD] <;>
  first
    | rfl
    | omega
    | (rw [if_pos (by omega)])
    | (rw [if_neg (by omega)])

/-- The emptiness test the source applies to the joined string
(`if not meaningful_text`) coincides with emptiness of the filtered line
list: the fallback fires exactly when no line passes the filter. -/
theorem candidateText_spec (context : List Char) :
    candidateText context =
      if meaningful_lines (clean_html_tags context) = []
      then (clean_html_tags context).take 500
      else joinWith ' ' ((meaningful_lines (clean_html_tags context)).take 5) := by
  simp only [candidateText]
  cases hm : meaningful_lines (clean_html_tags context) with
  | nil => simp [joinWith]
  | cons l t =>
      have hl : 10 ≤ l.length := by
        have hmem : l ∈ meaningful_lines (clean_html_tags context) := by
          rw [hm]; exact List.mem_cons_self _ _
        rw [meaningful_lines] at hmem
        obtain ⟨a, -, ha⟩ := List.mem_filterMap.mp hmem
        exact meaningfulOf_len ha
      have hne : joinWith ' ' (l :: t.take 4) ≠ [] :=
        joinWith_cons_ne_nil (fun e => by rw [e] at hl; simp at hl)
      simp [hne]

/-- A string without `'<'` has no tag-like matches. -/
theorem tagMatchesF_no_lt : ∀ (l : List Char) (n : Nat), '<' ∉ l → tagMatchesF n l = 0 := by
  intro l
  induction l with
  | nil => intro n h; cases n <;> simp [tagMatchesF]
  | cons c cs ih =>
      intro n h
      cases n with
      | zero => simp [tagMatchesF]
      | succ m =>
          have hc : ¬ c = '<' := fun e => h (e ▸ List.mem_cons_self _ _)
          simp only [tagMatchesF, if_neg hc]
          exact ih m (fun hm => h (List.mem_cons_of_mem _ hm))

/-- Closed form of the splitter: chunk `i` is the 1000-character window
starting at offset `800 * i` of the document. -/
theorem splitText_closed_form (n : Nat) : ∀ (text : List Char), text.length ≤ n →
    splitText text = (List.range (splitText text).length).map
      (fun i => (text.drop (800 * i)).take 1000) := by
  induction n with
  | zero =>
      intro text h
      have he : text = [] := List.eq_nil_of_length_eq_zero (Nat.le_zero.mp h)
      subst he
      simp [splitText]
  | succ m ih =>
      intro text h
      by_cases h0 : text = []
      · subst h0; simp [splitText]
      · by_cases h1 : text.length ≤ 1000
        · rw [splitText, if_neg h0, if_pos h1]
          have hr1 : List.range 1 = [0] := rfl
          simp [hr1, List.take_of_length_le h1]
        · have hrec : (text.drop 800).length ≤ m := by
            rw [List.length_drop]; omega
          have ihd := ih (text.drop 800) hrec
          rw [splitText, if_neg h0, if_neg h1]
          conv_lhs => rw [ihd]
          rw [List.length_cons, List.range_succ_eq_map, List.map_cons, List.map_map]
          refine congrArg₂ _ (by simp) ?_
          refine List.map_congr_left ?_
          intro i _
          simp only [Function.comp_apply, List.drop_drop, Nat.succ_eq_add_one]
          have he : 800 + 800 * i = 800 * (i + 1) := by ring
          rw [he]

/-- C1: for every pair of string inputs, `generate_response` terminates
without raising (it is a total function of its two string arguments) and
returns a non-empty string: every branch appends a non-empty constant
suffix. -/
theorem C1_generate_response_total_nonempty (context question : List Char) :
    generate_response context question ≠ [] := by
  rw [generate_response_eq]
  have hsfx := (classify_mem (pyLower question)).2.2.2.1
  intro hcontr
  exact hsfx (List.append_eq_nil.mp hcontr).2

/-- C9: the output of `generate_response` is a prefix of at most 500
characters of the candidate text followed by one of the six fixed
suffixes, and its total length is at most 500 plus the length of the
longest suffix. -/
theorem C9_output_shape (context question : List Char) :
    ∃ n sfx, n ≤ 500 ∧ sfx ∈ suffixes ∧
      generate_response context question = (candidateText context).take n ++ sfx ∧
      (generate_response context question).length ≤ 500 + maxSuffixLen := by
  obtain ⟨hle, -, hmem, -, hslen⟩ := classify_mem (pyLower question)
  refine ⟨(classify (pyLower question)).1, (classify (pyLower question)).2,
    hle, hmem, generate_response_eq context question, ?_⟩
  rw [generate_response_eq, List.length_append]
  have ht : ((candidateText context).take (classify (pyLower question)).1).length
      ≤ 500 := by
    rw [List.length_take]; omega
  omega

/-- C4: with no persisted index, `user_input` returns the distinguished
missing-index outcome (the dedicated `st.error` early return) and
performs no similarity search, whatever the search would have
returned. -/
theorem C4_no_index_early_return (loadOk : Bool) (docs : List (List Char))
    (q : List Char) :
    user_input false loadOk docs q = (QueryOutcome.indexNotFound, false) := rfl

/-- C8: with fewer than 3 tag-like matches, `clean_html_tags` returns its
input completely unchanged. -/
theorem C8_low_tag_count_identity (text : List Char) (h : tagMatches text < 3) :
    clean_html_tags text = text := by
  unfold clean_html_tags
  exact if_pos h

/-- Witness for C8 at a concrete input with one tag-like match. -/
theorem C8_low_tag_count_identity_witness :
    tagMatches "Fiyat 3 < 5 ve <b> kalin".data < 3 ∧
      clean_html_tags "Fiyat 3 < 5 ve <b> kalin".data
        = "Fiyat 3 < 5 ve <b> kalin".data :=
  ⟨by decide, C8_low_tag_count_identity _ (by decide)⟩

/-- C10: the meaningful-line filter is exactly the four-condition test
(stripped length at least 10, not starting with `"http"`, not containing
`"badge"` case-insensitively, more than 3 words), and the first-500-
characters fallback is used exactly when no line of the cleaned context
passes it; otherwise the candidate is the space-join of the first five
passing lines in order. -/
theorem C10_fallback_characterisation :
    (∀ line, meaningfulOf line =
        if 10 ≤ (stripWs line).length
            ∧ "http".data.isPrefixOf (stripWs line) = false
            ∧ isSubstr "badge".data (pyLower (stripWs line)) = false
            ∧ 3 < countWords (stripWs line)
        then some (stripWs line) else none)
  ∧ (∀ context, candidateText context =
        if meaningful_lines (clean_html_tags context) = []
        then (clean_html_tags context).take 500
        else joinWith ' ' ((meaningful_lines (clean_html_tags context)).take 5)) :=
  ⟨meaningfulOf_spec, candidateText_spec⟩

/-- C5 counterexample: the classifier transcribed from the source has
five keyword groups, not six; no language-availability group exists. -/
theorem C5_only_five_groups :
    templateRules.length = 5 ∧ ¬ templateRules.length = 6 := by decide

/-- C5 as amended: `generate_response` classifies the lower-cased
question by first-match substring dispatch over the five ordered keyword
groups of `templateRules`, each truncating the candidate text to between
300 and 500 characters, with a 500-character default when no group
matches; a question containing both a RAG keyword and a what-is keyword
gets the earlier what-is template. -/
theorem C5_classification :
    (∀ context question, generate_response context question =
        (candidateText context).take (classify (pyLower question)).1
          ++ (classify (pyLower question)).2)
  ∧ (∀ question_lower, classify question_lower
        = firstMatch templateRules (500, sfxDefault) question_lower)
  ∧ ((templateRules.map Rule.trunc).all
        fun n => decide (300 ≤ n) && decide (n ≤ 500)) = true
  ∧ (∀ context, generate_response context "RAG nedir?".data
        = (candidateText context).take 400 ++ sfxNedir) := by
  refine ⟨generate_response_eq, classify_eq_firstMatch, by decide, ?_⟩
  intro context
  rw [generate_response_eq]
  have hc : classify (pyLower "RAG nedir?".data) = (400, sfxNedir) := by decide
  rw [hc]

/-- C7 counterexample: on an input with three tags and a URL, the
cleaning removes the tags but the URL-like substring survives in the
output, so `clean_html_tags` does not remove URL-like substrings. -/
theorem C7_url_not_removed :
    clean_html_tags "<a> <b> <c> http://example.com burada".data
        = "http://example.com burada".data
      ∧ isSubstr "http://example.com".data
          (clean_html_tags "<a> <b> <c> http://example.com burada".data) = true := by
  decide

/-- C7 as amended: `clean_html_tags` removes only HTML-tag-like
substrings (and collapses whitespace) and never URL-like ones: any input
without `'<'` is returned verbatim, URLs included, and even when tag
removal runs, URL text outside the tags is preserved. -/
theorem C7_amended_urls_kept :
    (∀ text, '<' ∉ text → clean_html_tags text = text)
  ∧ clean_html_tags "<a> <b> <c> bkz http://ornek.com/sayfa oku".data
      = "bkz http://ornek.com/sayfa oku".data := by
  constructor
  · intro text h
    unfold clean_html_tags
    rw [if_pos]
    unfold tagMatches
    rw [tagMatchesF_no_lt text text.length h]
    omega
  · decide

/-- Witness for C7 at a concrete URL-only input. -/
theorem C7_amended_urls_kept_witness :
    '<' ∉ "https://ornek.com/yol adresine bak".data ∧
      clean_html_tags "https://ornek.com/yol adresine bak".data
        = "https://ornek.com/yol adresine bak".data :=
  ⟨by decide, C7_amended_urls_kept.1 _ (by decide)⟩

/-- C3 counterexample: on an unreadable file `get_text_chunks` lets no
exception propagate; it shows the error in the UI itself and returns
the non-error value `None`. -/
theorem C3_load_error_swallowed :
    get_text_chunks LoadOutcome.loadError
      = ⟨none, true, false⟩ := rfl

/-- C3 as amended: `get_text_chunks` never propagates an error to its
caller; on an unreadable or undecodable file (and only then) it reports
the error in the UI itself and returns `None`. -/
theorem C3_error_policy (file : LoadOutcome) :
    (get_text_chunks file).exceptionPropagated = false
  ∧ ((get_text_chunks file).result = none ↔ file = LoadOutcome.loadError)
  ∧ ((get_text_chunks file).uiErrorShown = true ↔ file = LoadOutcome.loadError) := by
  cases file <;> simp [get_text_chunks]

/-- C2 counterexample: when the delete of the old index fails (the
handler catches the error and continues) and the subsequent load also
fails, the rebuild leaves the old persisted index in place — a stale
state, not the no-index state. -/
theorem C2_stale_after_failed_delete :
    rebuild_index (some ⟨["eski parça".data]⟩) false LoadOutcome.loadError true
        = some ⟨["eski parça".data]⟩
      ∧ some (VectorStore.mk ["eski parça".data]) ≠ (none : Option VectorStore) := by
  constructor
  · rfl
  · simp

/-- C2 as amended: when the deletion of the old index succeeds (or none
existed), every subsequent failure — load error, empty chunk list, or
build/persist failure — leaves the no-index state, and a success installs
exactly the fresh index; only a failed deletion can leave stale state. -/
theorem C2_delete_then_write (old : Option VectorStore) (load : LoadOutcome)
    (buildOk : Bool) :
    rebuild_index old true load buildOk =
      match (get_text_chunks load).result with
      | none => none
      | some chunks =>
          if chunks.isEmpty || !buildOk then none
          else some ⟨chunks⟩ := by
  unfold rebuild_index get_vector_store
  cases old <;> cases load <;> cases buildOk <;> simp [get_text_chunks]

/-- C6: every chunk produced by the splitter has length at most 1000,
and the chunks are the ordered sequence of 1000-character windows taken
at offsets 0, 800, 1600, ... of the document, i.e. they come in document
order with 200 characters of overlap between full neighbours. -/
theorem C6_chunk_bounds_and_order (text : List Char) :
    ((splitText text).all fun c => decide (c.length ≤ 1000)) = true
  ∧ splitText text = (List.range (splitText text).length).map
      (fun i => (text.drop (800 * i)).take 1000) := by
  have h := splitText_closed_form text.length text (Nat.le_refl _)
  refine ⟨?_, h⟩
  rw [h, List.all_eq_true]
  intro c hc
  rw [List.mem_map] at hc
  obtain ⟨i, -, rfl⟩ := hc
  simp [List.length_take]
